import Mathlib

/-!
Verification of the incident lifecycle and knowledge-pack pipeline of the
`data-agent` repository (`dash/tools/incidents.py` and
`dash/tools/knowledge_pack.py`).

The Python tools are shallowly embedded as pure Lean functions:
* the `incident_markers` table is a `List Incident`, the
  `ops_unified_timeline` view is a `List Event`;
* the two external document stores (`knowledge` and `learnings`) are
  association lists with the documented `insert(name, content,
  skip_if_exists=True)` contract;
* SQL timestamps are modelled as strings compared lexicographically
  (faithful for normalised ISO-8601 timestamps, which is what every call
  site passes), and parsing a timestamp to a numeric epoch is abstracted
  by an explicit `parseTs : String -> Option Int` environment parameter;
* JSONB documents are modelled by the domain-restricted `KV` value type
  (every document this code reads or writes is a flat object whose
  values are null, bool, int, string, string list, or a one-level object
  with optional-string fields);
* the wall clock (`datetime.now`, SQL `NOW()`) is passed in explicitly.
-/

set_option maxRecDepth 16384

namespace DataAgent

/-! ## Character/string primitives

Python string operations used by the tools, re-implemented over
`List Char` so that everything reduces in the kernel. -/

/-- A single-quote character (SQL quote), built from its code point. -/
def sqChar : Char := Char.ofNat 39

/-- A one-character string holding a single quote. -/
def sq : String := String.singleton sqChar

/-- Python `str.lower()` (ASCII case folding; all inputs here are ASCII). -/
def strLower (s : String) : String := ⟨s.data.map Char.toLower⟩

/-- `leadsWith p l` is true when `p` is an initial segment of `l`. -/
def leadsWith : List Char → List Char → Bool
  | [], _ => true
  | _ :: _, [] => false
  | a :: as, b :: bs => a == b && leadsWith as bs

/-- `occursIn p l` is true when `p` occurs contiguously inside `l`
(Python `p in l` on strings, SQL `LIKE` with a metacharacter-free body). -/
def occursIn (p : List Char) : List Char → Bool
  | [] => leadsWith p []
  | l@(_ :: rest) => leadsWith p l || occursIn p rest

/-- Python `pat in hay` (substring containment). -/
def strContains (hay pat : String) : Bool := occursIn pat.data hay.data

/-- SQL `hay ILIKE :pattern` with `:pattern` built as percent-wildcard
around `pat`: case-insensitive substring containment (the embedding
assumes the user text holds no `LIKE` metacharacters). -/
def containsCI (hay pat : String) : Bool :=
  strContains (strLower hay) (strLower pat)

/-- Python slicing `s[:n]` (by code points, as `String.data` is the list
of code points). -/
def strTake (s : String) (n : Nat) : String := ⟨s.data.take n⟩

/-- Python `sep.join(xs)`. -/
def joinSep (sep : String) : List String → String
  | [] => ""
  | [x] => x
  | x :: xs => x ++ sep ++ joinSep sep xs

/-- Python `str.strip()` on its ASCII-whitespace fragment. -/
def trimChars (l : List Char) : List Char :=
  ((l.dropWhile Char.isWhitespace).reverse.dropWhile Char.isWhitespace).reverse

/-- Python `str.strip()`. -/
def strTrim (s : String) : String := ⟨trimChars s.data⟩

/-- Split a character list at commas; `splitComma "".data = [[]]`, like
Python `"".split(",") == [""]`. -/
def splitComma : List Char → List (List Char)
  | [] => [[]]
  | c :: cs =>
    if c == ',' then [] :: splitComma cs
    else
      match splitComma cs with
      | [] => [[c]]
      | w :: ws => (c :: w) :: ws

/-- Lexicographic order on character lists by code point: the order in
which normalised ISO-8601 timestamp strings agree with chronological
order. Models SQL timestamp comparison in `BETWEEN`/`ORDER BY`. -/
def listLe : List Char → List Char → Bool
  | [], _ => true
  | _ :: _, [] => false
  | a :: as, b :: bs =>
    if a.toNat < b.toNat then true
    else if b.toNat < a.toNat then false
    else listLe as bs

/-- Timestamp-string comparison used for `BETWEEN` and `ORDER BY`. -/
def strLeB (a b : String) : Bool := listLe a.data b.data

/-- Insertion step of a stable insertion sort. -/
def insertBy {α : Type} (le : α → α → Bool) (a : α) : List α → List α
  | [] => [a]
  | b :: bs => if le a b then a :: b :: bs else b :: insertBy le a bs

/-- Stable insertion sort; models SQL `ORDER BY`. -/
def sortBy {α : Type} (le : α → α → Bool) : List α → List α
  | [] => []
  | a :: as => insertBy le a (sortBy le as)

/-- Python truthiness of a nullable string (`None` and `""` are falsy). -/
def isBlankO : Option String → Bool
  | none => true
  | some s => s == ""

/-- Python `row[i] or "?"` on a nullable string column. -/
def orQ : Option String → String
  | none => "?"
  | some s => if s == "" then "?" else s

/-! ## JSONB documents

Domain-restricted JSON values: every `knowledge_pack` document and every
payload this pipeline writes is a flat string-keyed object whose values
fall in `KV`. -/

/-- A JSON value as stored in `knowledge_pack` documents and artifact
payloads. `jobjs` is the one nested-object shape that occurs
(`artifacts: obj of nullable strings`). -/
inductive KV where
  | null
  | jbool (b : Bool)
  | jnum (n : Int)
  | jstr (s : String)
  | jstrs (xs : List String)
  | jobjs (entries : List (String × Option String))
deriving DecidableEq, Repr

/-- A JSON object / Python dict (insertion-ordered, unique keys). -/
abbrev KPDoc := List (String × KV)

/-- Python `d.get(k)` / `d[k]` lookup. -/
def getKey (d : KPDoc) (k : String) : Option KV :=
  (d.find? (fun p => p.1 == k)).map (fun p => p.2)

/-- Python `d[k] = v`: replace in place when the key exists (dict
insertion order keeps its position), append otherwise. -/
def setKey (d : KPDoc) (k : String) (v : KV) : KPDoc :=
  if (d.find? (fun p => p.1 == k)).isSome then
    d.map (fun p => if p.1 == k then (k, v) else p)
  else d ++ [(k, v)]

/-- Python truthiness of a `KV` value. -/
def kvTruthy : KV → Bool
  | .null => false
  | .jbool b => b
  | .jnum n => !(n == 0)
  | .jstr s => !(s == "")
  | .jstrs xs => !xs.isEmpty
  | .jobjs es => !es.isEmpty

/-! ## Data model -/

/-- A row of the `incident_markers` table. -/
structure Incident where
  id : Int
  title : String
  severity : String
  started_at : String
  affected_services : List String
  root_cause : Option String
  resolution : Option String
  resolved_at : Option String
  timeline_query : Option String
  knowledge_pack : Option KPDoc
deriving DecidableEq, Repr

/-- A row of the read-only `ops_unified_timeline` view. -/
structure Event where
  occurred_at : Option String
  source : Option String
  event_type : Option String
  entity : Option String
  environment : Option String
  details : String
deriving DecidableEq, Repr

/-! ## Tool: reconstruct_timeline (`incidents.py`, lines 34-118) -/

/-- The `WHERE` clause of the timeline query: `occurred_at BETWEEN :start
AND :end` (inclusive, `NULL` rows excluded) and, when the Python-truthy
`entity_filter` is given, `entity ILIKE :pattern` with
`:pattern = f"%\x7bentity_filter\x7d%"`. -/
def timelineMatch (start_time end_time : String) (entity_filter : Option String)
    (e : Event) : Bool :=
  (match e.occurred_at with
   | none => false
   | some t => strLeB start_time t && strLeB t end_time) &&
  (if isBlankO entity_filter then true
   else
     match e.entity with
     | none => false
     | some en => containsCI en (entity_filter.getD ""))

/-- Sort key comparison for `ORDER BY occurred_at`. -/
def occLe (a b : Event) : Bool :=
  strLeB (a.occurred_at.getD "") (b.occurred_at.getD "")

/-- The rows fetched by `reconstruct_timeline`: filter by window and
entity, order by `occurred_at`, and apply `LIMIT min(limit, 500)`
(negative limits are out of the embedded domain; theorems assume
`0 ≤ limit`). -/
def timelineRows (events : List Event) (start_time end_time : String)
    (entity_filter : Option String) (limit : Int) : List Event :=
  (sortBy occLe (events.filter (timelineMatch start_time end_time entity_filter))).take
    (min limit 500).toNat

/-- Result of `reconstruct_timeline`. -/
inductive TimelineOut where
  | noEvents (start_time end_time : String) (entity_filter : Option String)
  | events (shown : List Event)
deriving DecidableEq, Repr

/-- `reconstruct_timeline(start_time, end_time, entity_filter, limit)`:
returns the "No events found ..." text when the query is empty,
otherwise the fetched rows (rendered by `renderEventLine`). -/
def reconstruct_timeline (events : List Event) (start_time end_time : String)
    (entity_filter : Option String) (limit : Int) : TimelineOut :=
  let rows := timelineRows events start_time end_time entity_filter limit
  if rows.isEmpty then .noEvents start_time end_time entity_filter
  else .events rows

/-- `icon.get(source, "?")` for the literal dict
`\x7b"deploy": "D", "docker": "C", "incident": "!"\x7d`. -/
def iconFor (source : String) : String :=
  if source == "deploy" then "D"
  else if source == "docker" then "C"
  else if source == "incident" then "!"
  else "?"

/-- `str(row[0])[:19] if row[0] else "?"`: truncate the timestamp to
second precision. -/
def renderTs : Option String → String
  | none => "?"
  | some t => if t == "" then "?" else strTake t 19

/-- One rendered timeline line:
`[icon] ts | source/event_type | entity (environment)`. -/
def renderEventLine (e : Event) : String :=
  let ts := renderTs e.occurred_at
  let source := orQ e.source
  let etype := orQ e.event_type
  let entity := orQ e.entity
  let env := orQ e.environment
  "[" ++ iconFor source ++ "] " ++ ts ++ " | " ++ source ++ "/" ++ etype ++
    " | " ++ entity ++ " (" ++ env ++ ")"

/-! ## Tool: create_incident_marker (`incidents.py`, lines 122-200) -/

/-- `[s.strip() for s in affected_services.split(",") if s.strip()]`. -/
def parseServices (affected_services : String) : List String :=
  ((splitComma affected_services.data).map (fun w => strTrim ⟨w⟩)).filter
    (fun s => !(s == ""))

/-- The `timeline_sql` text built at incident creation (an f-string over
`started_at` only; `NOW()` stays unevaluated in the stored text). -/
def timeline_sql (started_at : String) : String :=
  "SELECT occurred_at, source, event_type, entity, environment, details " ++
  "FROM ops_unified_timeline " ++
  "WHERE occurred_at BETWEEN " ++ sq ++ started_at ++ sq ++
  "::timestamptz - INTERVAL " ++ sq ++ "15 minutes" ++ sq ++ " " ++
  "AND COALESCE(NULL, NOW()) + INTERVAL " ++ sq ++ "15 minutes" ++ sq ++ " " ++
  "ORDER BY occurred_at"

/-- Result of `create_incident_marker`. -/
inductive CreateOut where
  | invalidSeverity (severity : String)
  | noServices
  | created (incident_id : Int) (title severity started_at : String)
      (services : List String)
deriving DecidableEq, Repr

/-- `create_incident_marker(title, severity, started_at,
affected_services, root_cause, resolution)`. `next_id` stands for the
store-assigned `RETURNING id`. Validation happens before any store
access, so both error branches leave the table untouched. -/
def create_incident_marker (db : List Incident) (next_id : Int)
    (title severity started_at affected_services : String)
    (root_cause resolution : Option String) : CreateOut × List Incident :=
  if !(severity == "critical" || severity == "warning" || severity == "info") then
    (.invalidSeverity severity, db)
  else
    let services := parseServices affected_services
    if services.isEmpty then (.noServices, db)
    else
      let row : Incident :=
        { id := next_id, title := title, severity := severity,
          started_at := started_at, affected_services := services,
          root_cause := root_cause, resolution := resolution,
          resolved_at := none,
          timeline_query := some (timeline_sql started_at),
          knowledge_pack := none }
      (.created next_id title severity started_at services, db ++ [row])

/-! ### Semantics of the stored timeline query (for claim C2)

The stored text is evaluated by the database at some later wall-clock
instant `evalNow`. `COALESCE(NULL, NOW())` reduces to `NOW()`, the clock
at evaluation time; the selected window is therefore
`[started_at - 15 min, evalNow + 15 min]` (epoch seconds). -/

/-- The window selected when a query with embedded start timestamp
`startedTs` runs at wall-clock `evalNow` (epoch seconds). -/
def storedQueryWindow (startedTs evalNow : Int) : Int × Int :=
  (startedTs - 15 * 60, evalNow + 15 * 60)

/-- The fixed text of `timeline_sql` up to the opening quote of the
embedded start timestamp. -/
def sqlHead : String :=
  "SELECT occurred_at, source, event_type, entity, environment, details " ++
  "FROM ops_unified_timeline " ++
  "WHERE occurred_at BETWEEN " ++ sq

/-- The fixed text of `timeline_sql` after the embedded start timestamp,
with its leading quote split off. -/
def sqlTailRest : String :=
  "::timestamptz - INTERVAL " ++ sq ++ "15 minutes" ++ sq ++ " " ++
  "AND COALESCE(NULL, NOW()) + INTERVAL " ++ sq ++ "15 minutes" ++ sq ++ " " ++
  "ORDER BY occurred_at"

/-- Drop an expected initial segment, or fail. -/
def dropLead : List Char → List Char → Option (List Char)
  | [], l => some l
  | _ :: _, [] => none
  | a :: as, b :: bs => if a == b then dropLead as bs else none

/-- Take characters up to the first single quote. -/
def takeToQuote : List Char → List Char
  | [] => []
  | c :: cs => if c == sqChar then [] else c :: takeToQuote cs

/-- Recover the quoted start timestamp embedded in a stored
`timeline_query` text. -/
def extractStartTs (sqlText : String) : Option String :=
  (dropLead sqlHead.data sqlText.data).map (fun rest => ⟨takeToQuote rest⟩)

/-- Denotation of a stored timeline-query text at evaluation wall-clock
`evalNow`: parse the embedded start timestamp and apply the
`- 15 min` / `NOW() + 15 min` bounds. -/
def evalStoredQuery (parseTs : String → Option Int) (sqlText : String)
    (evalNow : Int) : Option (Int × Int) :=
  match extractStartTs sqlText with
  | none => none
  | some s => (parseTs s).map (fun t => storedQueryWindow t evalNow)

/-! ## Tool: resolve_incident (`incidents.py`, lines 204-271) -/

/-- Result of `resolve_incident`. -/
inductive ResolveOut where
  | invalidJson
  | notFoundOrResolved (incident_id : Int)
  | resolved (incident_id : Int) (title started_at : String)
deriving DecidableEq, Repr

/-- The row predicate of the conditional update:
`WHERE id = :id AND resolved_at IS NULL`. -/
def resolveHits (incident_id : Int) (r : Incident) : Bool :=
  r.id == incident_id && r.resolved_at.isNone

/-- The `SET` clause of the update. -/
def resolveSet (now root_cause resolution : String) (kp : KPDoc)
    (r : Incident) : Incident :=
  { r with resolved_at := some now, root_cause := some root_cause,
           resolution := some resolution, knowledge_pack := some kp }

/-- `resolve_incident(incident_id, root_cause, resolution,
knowledge_pack)`. `kpRaw = none` models a `knowledge_pack` string that
`json.loads` rejects; `some kp` is the parsed document. The update is a
single conditional `UPDATE ... WHERE id = :id AND resolved_at IS NULL
RETURNING ...`; when no row matches, the tool reports
`not found or already resolved` and the table is untouched. -/
def resolve_incident (db : List Incident) (incident_id : Int)
    (root_cause resolution : String) (kpRaw : Option KPDoc) (now : String) :
    ResolveOut × List Incident :=
  match kpRaw with
  | none => (.invalidJson, db)
  | some kp =>
    match db.find? (resolveHits incident_id) with
    | none => (.notFoundOrResolved incident_id, db)
    | some row =>
      (.resolved incident_id row.title row.started_at,
       db.map (fun r =>
         if resolveHits incident_id r then resolveSet now root_cause resolution kp r
         else r))

/-! ## Tool: find_similar_incidents (`incidents.py`, lines 275-351) -/

/-- Result of `find_similar_incidents`. -/
inductive SearchOut where
  | needCriteria
  | noMatches (services keywords : Option String)
  | results (shown : List Incident)
deriving DecidableEq, Repr

/-- `affected_services && :svc_arr::TEXT[]` — array overlap. -/
def serviceOverlap (svc_list : List String) (r : Incident) : Bool :=
  r.affected_services.any (fun s => svc_list.contains s)

/-- `(root_cause ILIKE :kw_pattern OR title ILIKE :kw_pattern)`; a `NULL`
`root_cause` never matches but the title disjunct still can. -/
def keywordMatch (kw : String) (r : Incident) : Bool :=
  (match r.root_cause with
   | none => false
   | some rc => containsCI rc kw) || containsCI r.title kw

/-- The assembled `WHERE` clause: the conditions for the given criteria
joined with `" OR "`. -/
def similarMatch (services keywords : Option String) (r : Incident) : Bool :=
  (if isBlankO services then false
   else serviceOverlap (parseServices (services.getD "")) r) ||
  (if isBlankO keywords then false else keywordMatch (keywords.getD "") r)

/-- `ORDER BY started_at DESC` comparison. -/
def startedDesc (a b : Incident) : Bool := strLeB b.started_at a.started_at

/-- `find_similar_incidents(services, keywords, limit)`: requires at
least one Python-truthy criterion, combines present conditions with
`OR`, orders by `started_at DESC` and applies `LIMIT min(limit, 50)`. -/
def find_similar_incidents (db : List Incident) (services keywords : Option String)
    (limit : Int) : SearchOut :=
  if isBlankO services && isBlankO keywords then .needCriteria
  else
    let rows :=
      (sortBy startedDesc (db.filter (similarMatch services keywords))).take
        (min limit 50).toNat
    if rows.isEmpty then .noMatches services keywords else .results rows

/-! ## Helpers of `knowledge_pack.py` (lines 296-397) -/

/-- `_slugify`: lowercase, spaces to underscores, keep alphanumerics and
underscores, truncate to 40 characters. -/
def slugify (s : String) : String :=
  let slug : String := ⟨(strLower s).data.map (fun c => if c == ' ' then '_' else c)⟩
  let slug : String := ⟨slug.data.filter (fun c => c.isAlphanum || c == '_')⟩
  strTake slug 40

/-- The fixed, ordered `symptom_patterns` table. -/
def symptom_patterns : List (String × String) :=
  [("oom", "Out of memory / OOM kill"),
   ("crash", "Service crash / restart loop"),
   ("timeout", "Request timeout"),
   ("502", "HTTP 502 Bad Gateway"),
   ("503", "HTTP 503 Service Unavailable"),
   ("521", "Cloudflare 521 (origin down)"),
   ("cert", "TLS certificate issue"),
   ("dns", "DNS resolution failure"),
   ("disk", "Disk space exhaustion"),
   ("memory", "Memory pressure"),
   ("cpu", "CPU saturation"),
   ("connection refused", "Connection refused"),
   ("deploy", "Deployment failure"),
   ("rollback", "Rollback required")]

/-- `list(dict.fromkeys(xs))`: deduplicate keeping the first occurrence
of each element, preserving order. -/
def dedupKeepFirst (seen : List String) : List String → List String
  | [] => []
  | x :: xs =>
    if seen.contains x then dedupKeepFirst seen xs
    else x :: dedupKeepFirst (x :: seen) xs

/-- The `symptoms.extend(kp["symptoms"])` step of `_extract_symptoms`:
the carried-over symptoms of a Python-truthy `kp["symptoms"]` list
(other truthy shapes would make Python iterate a non-list; they are
outside the embedded domain). -/
def priorSymptoms (kp : Option KPDoc) : List String :=
  match kp with
  | some d =>
    match getKey d "symptoms" with
    | some (KV.jstrs xs) => if xs.isEmpty then [] else xs
    | _ => []
  | none => []

/-- `_extract_symptoms(title, root_cause, kp)`: scan the lowercased
concatenation of title and root cause against the fixed pattern table
(every pattern may fire, in table order), append the prior-pack
symptoms, deduplicate keeping first occurrences. -/
def extract_symptoms (title root_cause : String) (kp : Option KPDoc) :
    List String :=
  let text := strLower (title ++ " " ++ root_cause)
  let fired :=
    (symptom_patterns.filter (fun p => strContains text p.1)).map (fun p => p.2)
  dedupKeepFirst [] (fired ++ priorSymptoms kp)

/-- `_compute_duration(started_at, resolved_at)`: `None` when either
side is falsy or fails to parse, otherwise the elapsed minutes
(truncated toward zero like Python `int()`), clamped to `≥ 0`. -/
def compute_duration (parseTs : String → Option Int)
    (started_at resolved_at : Option String) : Option Int :=
  if isBlankO started_at || isBlankO resolved_at then none
  else
    match parseTs (started_at.getD ""), parseTs (resolved_at.getD "") with
    | some s, some r => some (max 0 (Int.tdiv (r - s) 60))
    | _, _ => none

/-- `_generate_runbook_suggestion`: the markdown draft (returned, never
persisted). -/
def generate_runbook_suggestion (incident_id : Int) (title severity : String)
    (services : List String) (root_cause resolution started_at resolved_at : String)
    (existing_kp : KPDoc) : String :=
  let svc_str := if services.isEmpty then "unknown" else joinSep ", " services
  let gotchas :=
    match getKey existing_kp "gotchas" with
    | some v =>
      if kvTruthy v then
        "\n### Gotchas\n\n" ++
          (match v with
           | KV.jstrs gs => joinSep "\n" (gs.map (fun g => "- " ++ g))
           | _ => "") ++ "\n"
      else ""
    | none => ""
  "### Incident #" ++ toString incident_id ++ ": " ++ title ++ "\n\n" ++
  "**Severity:** " ++ severity ++ "\n" ++
  "**Affected Services:** " ++ svc_str ++ "\n" ++
  "**Duration:** " ++ started_at ++ " → " ++ resolved_at ++ "\n\n" ++
  "### Root Cause\n\n" ++ root_cause ++ "\n\n" ++
  "### Resolution Steps\n\n" ++ resolution ++ "\n" ++ gotchas ++
  "### Prevention\n\n" ++
  "<!-- TODO: Add prevention steps based on root cause analysis -->\n\n" ++
  "### Detection\n\n" ++
  "To detect this issue early, monitor for:\n" ++
  "- Timeline query: `incident_" ++ toString incident_id ++
  "_timeline` (saved to knowledge base)\n" ++
  "- Similar incidents: `find_similar_incidents(services=\"" ++ svc_str ++
  "\")` or keywords from root cause\n\n" ++
  "---\n_Auto-generated from incident #" ++ toString incident_id ++
  ". Review before merging into runbooks._"

/-! ## Tool: generate_knowledge_pack (`knowledge_pack.py`, lines 44-212)

The two external document stores follow the documented
`insert(name, text_content, skip_if_exists=True)` contract; the stored
`text_content` is modelled as the structured payload rather than its
`json.dumps` rendering. -/

/-- A named-document store (`knowledge` or `learnings`). -/
abbrev DocStore := List (String × KPDoc)

/-- `store.insert(name, content, skip_if_exists=True)`. -/
def insertSkipIfExists (store : DocStore) (name : String) (content : KPDoc) :
    DocStore :=
  if (store.find? (fun p => p.1 == name)).isSome then store
  else store ++ [(name, content)]

/-- The `query_payload` dict of step 1 (field order as in the source). -/
def queryPayload (incident_id : Int) (query_name title severity : String)
    (services : List String) (root_cause timeline_query : String) : KPDoc :=
  [("type", KV.jstr "validated_query"),
   ("name", KV.jstr query_name),
   ("question", KV.jstr ("Reconstruct the timeline for incident #" ++
      toString incident_id ++ ": " ++ title)),
   ("query", KV.jstr timeline_query),
   ("summary", KV.jstr ("Timeline reconstruction for " ++ severity ++
      " incident affecting " ++ joinSep ", " services ++ ". Root cause: " ++
      strTake root_cause 100)),
   ("tables_used", KV.jstrs ["ops_unified_timeline"]),
   ("incident_id", KV.jnum incident_id)]

/-- The `signature` dict of step 2, with the conditional carry-over of a
Python-truthy `existing_kp["gotchas"]`. -/
def incidentSignature (parseTs : String → Option Int) (incident_id : Int)
    (title severity : String) (services : List String)
    (root_cause resolution started_at_disp resolved_at_disp : String)
    (started_raw resolved_raw : Option String) (existing_kp : KPDoc) : KPDoc :=
  let base : KPDoc :=
    [("type", KV.jstr "incident_signature"),
     ("incident_id", KV.jnum incident_id),
     ("title", KV.jstr title),
     ("severity", KV.jstr severity),
     ("affected_services", KV.jstrs services),
     ("symptoms", KV.jstrs (extract_symptoms title root_cause (some existing_kp))),
     ("root_cause", KV.jstr root_cause),
     ("resolution", KV.jstr resolution),
     ("started_at", KV.jstr started_at_disp),
     ("resolved_at", KV.jstr resolved_at_disp),
     ("duration_minutes",
       match compute_duration parseTs started_raw resolved_raw with
       | some n => KV.jnum n
       | none => KV.null)]
  match getKey existing_kp "gotchas" with
  | some v => if kvTruthy v then setKey base "gotchas" v else base
  | none => base

/-- The step-4 merge into the incident `knowledge_pack`: start from a
copy of the existing document, assign the three metadata keys. -/
def mergedKnowledgePack (existing_kp : KPDoc) (now : String)
    (validated_query : Option String) (learning : String) : KPDoc :=
  setKey
    (setKey (setKey existing_kp "knowledge_pack_generated" (KV.jbool true))
      "generated_at" (KV.jstr now))
    "artifacts"
    (KV.jobjs [("validated_query", validated_query), ("learning", some learning)])

/-- The mutable state `generate_knowledge_pack` acts on. -/
structure GenState where
  incidents : List Incident
  knowledge : DocStore
  learnings : DocStore
deriving DecidableEq, Repr

/-- Result of `generate_knowledge_pack`; each constructor corresponds to
one `return` of the source. -/
inductive GenOut where
  | notFound (incident_id : Int)
  | notResolved (incident_id : Int)
  | missingFields (incident_id : Int)
  | success (incident_id : Int) (title : String) (artifacts : List String)
      (runbook : String)
deriving DecidableEq, Repr

/-- The string each `GenOut` renders to (the source returns these
strings directly). -/
def GenOut.render : GenOut → String
  | .notFound i => "Error: Incident #" ++ toString i ++ " not found."
  | .notResolved i =>
    "Error: Incident #" ++ toString i ++ " is not yet resolved. Resolve it first."
  | .missingFields i =>
    "Error: Incident #" ++ toString i ++
      " is missing root_cause or resolution. " ++
      "Both are required to generate a knowledge pack."
  | .success i title artifacts runbook =>
    joinSep "\n"
      (["**Knowledge Pack Generated** for Incident #" ++ toString i ++ ": " ++
          title, "", "**Artifacts:**"] ++
        artifacts.map (fun a => "- " ++ a) ++
        ["", "---", "", "**Runbook Suggestion** (review before merging):", "",
          runbook])

/-- `generate_knowledge_pack(incident_id)`. `parseTs` abstracts
`datetime.fromisoformat`, `now` is `datetime.now(timezone.utc)` at the
call. The store-insert and update branches that catch exceptions are
modelled on their success path (the store contract has no failure mode
in the embedding). -/
def generate_knowledge_pack (parseTs : String → Option Int) (now : String)
    (st : GenState) (incident_id : Int) : GenOut × GenState :=
  match st.incidents.find? (fun r => r.id == incident_id) with
  | none => (.notFound incident_id, st)
  | some row =>
    let title := row.title
    let severity := row.severity
    let started_at := if row.started_at == "" then "unknown" else row.started_at
    let resolved_at := row.resolved_at
    let services := row.affected_services
    let root_cause := row.root_cause
    let resolution := row.resolution
    let timeline_query := row.timeline_query
    let existing_kp := row.knowledge_pack.getD []
    if isBlankO resolved_at then (.notResolved incident_id, st)
    else if isBlankO root_cause || isBlankO resolution then
      (.missingFields incident_id, st)
    else
      let rc := root_cause.getD ""
      let res := resolution.getD ""
      let resAt := resolved_at.getD ""
      let query_name := "incident_" ++ toString incident_id ++ "_timeline"
      let knowledge1 :=
        if isBlankO timeline_query then st.knowledge
        else
          insertSkipIfExists st.knowledge query_name
            (queryPayload incident_id query_name title severity services rc
              (timeline_query.getD ""))
      let arts1 : List String :=
        if isBlankO timeline_query then []
        else ["Validated query " ++ sq ++ query_name ++ sq ++ " saved"]
      let learning_name := "incident_sig_" ++ toString incident_id ++ "_" ++
        slugify title
      let signature :=
        incidentSignature parseTs incident_id title severity services rc res
          started_at resAt (some row.started_at) row.resolved_at existing_kp
      let learnings1 := insertSkipIfExists st.learnings learning_name signature
      let arts2 :=
        arts1 ++ ["Incident signature " ++ sq ++ learning_name ++ sq ++ " saved"]
      let runbook_md :=
        generate_runbook_suggestion incident_id title severity services rc res
          started_at resAt existing_kp
      let arts3 := arts2 ++ ["Runbook suggestion generated (see below)"]
      let updated_kp :=
        mergedKnowledgePack existing_kp now
          (if isBlankO timeline_query then none else some query_name)
          learning_name
      let incidents1 :=
        st.incidents.map (fun r =>
          if r.id == incident_id then { r with knowledge_pack := some updated_kp }
          else r)
      let arts4 := arts3 ++ ["Incident knowledge_pack metadata updated"]
      (.success incident_id title arts4 runbook_md,
       { incidents := incidents1, knowledge := knowledge1,
         learnings := learnings1 })

/-! ## Concrete sample data (used by witnesses and counterexamples) -/

/-- A timestamp parser defined on no input (duration then reads `None`,
as when `fromisoformat` raises). -/
def pZero : String → Option Int := fun _ => none

/-- A timestamp parser defined on the one sample timestamp. -/
def pFix : String → Option Int :=
  fun s => if s == "2025-01-15T03:00:00Z" then some 1000 else none

/-- Sample deploy event. -/
def evDeploy : Event :=
  { occurred_at := some "2025-01-15T03:00:00.120+00:00", source := some "deploy",
    event_type := some "deploy_started", entity := some "ghost-blog",
    environment := some "prod", details := "" }

/-- Sample docker event. -/
def evDocker : Event :=
  { occurred_at := some "2025-01-15T03:02:00.000+00:00", source := some "docker",
    event_type := some "die", entity := some "ghost_web_1",
    environment := some "prod", details := "" }

/-- Sample event whose source carries the spec-side label
`container-runtime`, which the rendering dict does not know. -/
def evCR : Event :=
  { evDocker with source := some "container-runtime" }

/-- Sample event outside the windows used below. -/
def evLate : Event :=
  { evDeploy with occurred_at := some "2025-02-01T00:00:00.000+00:00" }

/-- Sample event list (deliberately out of chronological order). -/
def evList : List Event := [evDocker, evDeploy, evLate]

/-- Sample open incident. -/
def incA : Incident :=
  { id := 1, title := "Ghost OOM crash loop", severity := "critical",
    started_at := "2025-01-15T03:00:00Z",
    affected_services := ["ghost-blog", "ghost-db"],
    root_cause := none, resolution := none, resolved_at := none,
    timeline_query := some (timeline_sql "2025-01-15T03:00:00Z"),
    knowledge_pack := none }

/-- `incA` after a successful resolution. -/
def incResolved : Incident :=
  { incA with resolved_at := some "2025-01-15T04:30:00+00:00",
              root_cause := some "Memory limit too low for Ghost 5.x",
              resolution := some "Increased container memory to 512MB" }

/-- A resolved incident whose root cause was never recorded. -/
def incNoRC : Incident := { incResolved with root_cause := none }

/-- A resolved incident whose `knowledge_pack` already carries keys,
among them the metadata key `generated_at`. -/
def incKpMeta : Incident :=
  { incResolved with
      knowledge_pack := some
        [("gotchas", KV.jstrs ["Ghost 5.x needs 512MB minimum"]),
         ("generated_at", KV.jstr "old")] }

/-- A resolved incident with no stored `timeline_query`. -/
def incNoTq : Incident := { incResolved with timeline_query := none }

/-- Generator states over the sample incidents. -/
def stEmpty : GenState := { incidents := [], knowledge := [], learnings := [] }

/-- State holding only the unresolved sample incident. -/
def stUnres : GenState := { incidents := [incA], knowledge := [], learnings := [] }

/-- State holding a resolved incident that misses its root cause. -/
def stNoRC : GenState := { incidents := [incNoRC], knowledge := [], learnings := [] }

/-- State holding a resolved incident with pre-existing
`knowledge_pack` keys. -/
def stMeta : GenState := { incidents := [incKpMeta], knowledge := [], learnings := [] }

/-- State holding a resolved incident without a stored timeline query. -/
def stNoTq : GenState := { incidents := [incNoTq], knowledge := [], learnings := [] }

/-- Sample incident matching keyword searches only. -/
def incCert : Incident :=
  { incA with id := 2, title := "Traefik cert failure",
              affected_services := ["traefik"],
              started_at := "2025-01-12T10:00:00Z",
              root_cause := some "ACME rate limit" }

/-- Sample incident table for the search tool: one incident matching
only by service, one only by keyword. -/
def dbSearch : List Incident := [incResolved, incCert]

/-! ## Helper lemmas -/

theorem strData_append (a b : String) : (a ++ b).data = a.data ++ b.data := rfl

theorem sq_data : sq.data = [sqChar] := rfl

theorem listLe_cons (x y : Char) (xs ys : List Char) :
    listLe (x :: xs) (y :: ys) = true ↔
      (x.toNat < y.toNat ∨ (x.toNat = y.toNat ∧ listLe xs ys = true)) := by
  simp only [listLe]
  by_cases h1 : x.toNat < y.toNat
  · simp [h1]
  · by_cases h2 : y.toNat < x.toNat
    · simp only [if_neg h1, if_pos h2]
      constructor
      · intro h; exact absurd h (by decide)
      · intro h
        rcases h with h | ⟨h, _⟩ <;> omega
    · have h3 : x.toNat = y.toNat := by omega
      simp [if_neg h1, if_neg h2, h3]

theorem listLe_total : ∀ a b : List Char, listLe a b = true ∨ listLe b a = true := by
  intro a
  induction a with
  | nil => intro b; left; rfl
  | cons c cs ih =>
    intro b
    cases b with
    | nil => right; rfl
    | cons d ds =>
      rcases Nat.lt_trichotomy c.toNat d.toNat with h | h | h
      · left; exact (listLe_cons c d cs ds).mpr (Or.inl h)
      · rcases ih ds with h2 | h2
        · left; exact (listLe_cons c d cs ds).mpr (Or.inr ⟨h, h2⟩)
        · right; exact (listLe_cons d c ds cs).mpr (Or.inr ⟨h.symm, h2⟩)
      · right; exact (listLe_cons d c ds cs).mpr (Or.inl h)

theorem listLe_trans :
    ∀ a b c : List Char, listLe a b = true → listLe b c = true → listLe a c = true := by
  intro a
  induction a with
  | nil => intro b c _ _; rfl
  | cons x xs ih =>
    intro b c hab hbc
    cases b with
    | nil => exact absurd hab (by simp [listLe])
    | cons y ys =>
      cases c with
      | nil => exact absurd hbc (by simp [listLe])
      | cons z zs =>
        rcases (listLe_cons x y xs ys).mp hab with h1 | ⟨h1, h1t⟩ <;>
          rcases (listLe_cons y z ys zs).mp hbc with h2 | ⟨h2, h2t⟩
        · exact (listLe_cons x z xs zs).mpr (Or.inl (by omega))
        · exact (listLe_cons x z xs zs).mpr (Or.inl (by omega))
        · exact (listLe_cons x z xs zs).mpr (Or.inl (by omega))
        · exact (listLe_cons x z xs zs).mpr (Or.inr ⟨by omega, ih ys zs h1t h2t⟩)

theorem strLeB_total (a b : String) : strLeB a b = true ∨ strLeB b a = true :=
  listLe_total a.data b.data

theorem strLeB_trans (a b c : String) :
    strLeB a b = true → strLeB b c = true → strLeB a c = true :=
  listLe_trans a.data b.data c.data

theorem mem_insertBy {α : Type} (le : α → α → Bool) (a x : α) (l : List α) :
    x ∈ insertBy le a l ↔ x = a ∨ x ∈ l := by
  induction l with
  | nil => simp [insertBy]
  | cons b bs ih =>
    simp only [insertBy]
    split
    · simp [List.mem_cons]
    · simp only [List.mem_cons, ih]
      tauto

theorem length_insertBy {α : Type} (le : α → α → Bool) (a : α) (l : List α) :
    (insertBy le a l).length = l.length + 1 := by
  induction l with
  | nil => rfl
  | cons b bs ih =>
    simp only [insertBy]
    split
    · rfl
    · simp [ih]

theorem mem_sortBy {α : Type} (le : α → α → Bool) (x : α) (l : List α) :
    x ∈ sortBy le l ↔ x ∈ l := by
  induction l with
  | nil => simp [sortBy]
  | cons b bs ih =>
    simp [sortBy, mem_insertBy, ih, List.mem_cons]

theorem length_sortBy {α : Type} (le : α → α → Bool) (l : List α) :
    (sortBy le l).length = l.length := by
  induction l with
  | nil => rfl
  | cons b bs ih => simp [sortBy, length_insertBy, ih]

theorem pairwise_insertBy {α : Type} (le : α → α → Bool)
    (htot : ∀ a b, le a b = true ∨ le b a = true)
    (htrans : ∀ a b c, le a b = true → le b c = true → le a c = true)
    (a : α) (l : List α) (hl : l.Pairwise (fun x y => le x y = true)) :
    (insertBy le a l).Pairwise (fun x y => le x y = true) := by
  induction l with
  | nil => simp [insertBy]
  | cons b bs ih =>
    rcases List.pairwise_cons.mp hl with ⟨hb, hbs⟩
    simp only [insertBy]
    split
    · rename_i hab
      refine List.pairwise_cons.mpr ⟨?_, hl⟩
      intro x hx
      rcases List.mem_cons.mp hx with rfl | hx
      · exact hab
      · exact htrans a b x hab (hb x hx)
    · rename_i hab
      refine List.pairwise_cons.mpr ⟨?_, ih hbs⟩
      intro x hx
      rcases (mem_insertBy le a x bs).mp hx with rfl | hx
      · rcases htot x b with h | h
        · exact absurd h hab
        · exact h
      · exact hb x hx

theorem pairwise_sortBy {α : Type} (le : α → α → Bool)
    (htot : ∀ a b, le a b = true ∨ le b a = true)
    (htrans : ∀ a b c, le a b = true → le b c = true → le a c = true)
    (l : List α) : (sortBy le l).Pairwise (fun x y => le x y = true) := by
  induction l with
  | nil => simp [sortBy]
  | cons b bs ih => exact pairwise_insertBy le htot htrans b (sortBy le bs) ih

theorem mem_dedupKeepFirst (x : String) :
    ∀ (l seen : List String), x ∈ dedupKeepFirst seen l → x ∈ l ∧ x ∉ seen := by
  intro l
  induction l with
  | nil => intro seen h; exact absurd h (by simp [dedupKeepFirst])
  | cons y ys ih =>
    intro seen
    simp only [dedupKeepFirst]
    split
    · intro h
      rcases ih seen h with ⟨h1, h2⟩
      exact ⟨List.mem_cons_of_mem _ h1, h2⟩
    · rename_i hy
      intro h
      rcases List.mem_cons.mp h with rfl | h
      · exact ⟨List.mem_cons_self _ _, by simpa using hy⟩
      · rcases ih (y :: seen) h with ⟨h1, h2⟩
        exact ⟨List.mem_cons_of_mem _ h1,
               fun hx => h2 (List.mem_cons_of_mem _ hx)⟩

theorem nodup_dedupKeepFirst :
    ∀ (l seen : List String), (dedupKeepFirst seen l).Nodup := by
  intro l
  induction l with
  | nil => intro seen; simp [dedupKeepFirst]
  | cons y ys ih =>
    intro seen
    simp only [dedupKeepFirst]
    split
    · exact ih seen
    · refine List.nodup_cons.mpr ⟨?_, ih (y :: seen)⟩
      intro hy
      exact (mem_dedupKeepFirst y ys (y :: seen) hy).2 (List.mem_cons_self _ _)

theorem dedupKeepFirst_sublist :
    ∀ (l seen : List String), List.Sublist (dedupKeepFirst seen l) l := by
  intro l
  induction l with
  | nil => intro seen; simp [dedupKeepFirst]
  | cons y ys ih =>
    intro seen
    simp only [dedupKeepFirst]
    split
    · exact (ih seen).cons y
    · exact (ih (y :: seen)).cons₂ y

theorem getKey_setKey_same (d : KPDoc) (k : String) (v : KV) :
    getKey (setKey d k v) k = some v := by
  unfold setKey getKey
  split
  · rename_i h
    rcases Option.isSome_iff_exists.mp h with ⟨p₀, hp₀⟩
    rw [List.find?_map]
    have hpred : ((fun q : String × KV => q.1 == k) ∘
        (fun p : String × KV => if p.1 == k then (k, v) else p)) =
          (fun q : String × KV => q.1 == k) := by
      funext p
      by_cases hp : p.1 = k
      · simp [Function.comp, hp]
      · simp [Function.comp, hp]
    rw [hpred, hp₀]
    have hk := List.find?_some hp₀
    have hk2 : p₀.1 = k := by simpa using hk
    simp [hk2]
  · rename_i h
    have h0 : (d.find? fun p => p.1 == k) = none :=
      Option.not_isSome_iff_eq_none.mp h
    rw [List.find?_append, h0]
    simp [List.find?]

theorem getKey_setKey_other (d : KPDoc) (k k' : String) (v : KV) (hne : k' ≠ k) :
    getKey (setKey d k v) k' = getKey d k' := by
  have hkk : (k == k') = false := by
    simp only [beq_eq_false_iff_ne]
    exact fun h => hne h.symm
  unfold setKey getKey
  split
  · rw [List.find?_map]
    have hpred : ((fun q : String × KV => q.1 == k') ∘
        (fun p : String × KV => if p.1 == k then (k, v) else p)) =
          (fun q : String × KV => q.1 == k') := by
      funext p
      by_cases hp : p.1 = k
      · simp [Function.comp, hp]
      · simp [Function.comp, hp]
    rw [hpred]
    cases hc : d.find? fun q => q.1 == k' with
    | none => rfl
    | some q =>
      have hq := List.find?_some hc
      simp only [] at hq
      have hq2 : q.1 = k' := by simpa using hq
      have hqk : ¬ q.1 = k := by rw [hq2]; exact hne
      simp [hqk]
  · rw [List.find?_append]
    simp [List.find?, hkk]

theorem dropLead_append : ∀ (p r : List Char), dropLead p (p ++ r) = some r := by
  intro p
  induction p with
  | nil => intro r; rfl
  | cons a as ih => intro r; simp [dropLead, ih]

theorem takeToQuote_append (s : List Char) (r : List Char)
    (hs : ∀ c ∈ s, ¬ c = sqChar) : takeToQuote (s ++ sqChar :: r) = s := by
  induction s with
  | nil => simp [takeToQuote]
  | cons c cs ih =>
    have hc : ¬ c = sqChar := hs c (List.mem_cons_self _ _)
    have hcb : (c == sqChar) = false := by
      simpa only [beq_eq_false_iff_ne] using hc
    simp only [List.cons_append, takeToQuote, hcb, Bool.false_eq_true, if_false,
      List.cons.injEq, true_and]
    exact ih (fun x hx => hs x (List.mem_cons_of_mem _ hx))

theorem timeline_sql_data (s : String) :
    (timeline_sql s).data =
      sqlHead.data ++ (s.data ++ (sqChar :: sqlTailRest.data)) := by
  simp [timeline_sql, sqlHead, sqlTailRest, strData_append, sq_data,
    List.append_assoc]

theorem extractStartTs_timeline_sql (s : String)
    (hs : ∀ c ∈ s.data, ¬ c = sqChar) :
    extractStartTs (timeline_sql s) = some s := by
  unfold extractStartTs
  rw [timeline_sql_data, dropLead_append]
  simp [takeToQuote_append s.data sqlTailRest.data hs]

/-! ## Claim C4 -/

/-- C4: for every window, optional entity filter and requested limit,
`reconstruct_timeline` fetches exactly the events whose `occurred_at`
lies in `[start, end]` inclusive (restricted, when a filter is given, to
events whose entity contains the filter as a case-insensitive
substring), sorted ascending by `occurred_at`, with at most
`min(limit, 500)` events regardless of the requested limit; every
matching event is returned whenever the match count fits under the
cap. -/
theorem reconstruct_timeline_contract (events : List Event)
    (start_time end_time : String) (entity_filter : Option String)
    (limit : Int) (hlim : 0 ≤ limit) :
    (∀ e ∈ timelineRows events start_time end_time entity_filter limit,
        timelineMatch start_time end_time entity_filter e = true) ∧
    (timelineRows events start_time end_time entity_filter limit).Pairwise
      (fun a b => occLe a b = true) ∧
    (timelineRows events start_time end_time entity_filter limit).length ≤
      (min limit 500).toNat ∧
    ((events.filter (timelineMatch start_time end_time entity_filter)).length ≤
        (min limit 500).toNat →
      ∀ e ∈ events, timelineMatch start_time end_time entity_filter e = true →
        e ∈ timelineRows events start_time end_time entity_filter limit) := by
  simp only [timelineRows]
  refine ⟨?_, ?_, ?_, ?_⟩
  · intro e he
    have h1 : e ∈ sortBy occLe
        (events.filter (timelineMatch start_time end_time entity_filter)) :=
      List.take_subset _ _ he
    have h2 := (mem_sortBy occLe e _).mp h1
    exact (List.mem_filter.mp h2).2
  · exact (pairwise_sortBy occLe (fun a b => strLeB_total _ _)
      (fun a b c => strLeB_trans _ _ _) _).sublist (List.take_sublist _ _)
  · rw [List.length_take]
    exact Nat.min_le_left _ _
  · intro hlen e he hm
    have hfl : e ∈ events.filter (timelineMatch start_time end_time entity_filter) :=
      List.mem_filter.mpr ⟨he, hm⟩
    have hs : e ∈ sortBy occLe
        (events.filter (timelineMatch start_time end_time entity_filter)) :=
      (mem_sortBy _ _ _).mpr hfl
    have hlen2 : (sortBy occLe
        (events.filter (timelineMatch start_time end_time entity_filter))).length ≤
          (min limit 500).toNat := by
      rw [length_sortBy]; exact hlen
    rw [List.take_of_length_le hlen2]
    exact hs

/-- C4 witness: on the sample event list with window
`[03:00:00, 04:00:00]` and requested limit 600, the in-window deploy
event is returned. -/
theorem reconstruct_timeline_contract_witness :
    evDeploy ∈ timelineRows evList "2025-01-15T03:00:00" "2025-01-15T04:00:00"
      none 600 :=
  (reconstruct_timeline_contract evList "2025-01-15T03:00:00"
      "2025-01-15T04:00:00" none 600 (by decide)).2.2.2 (by decide) evDeploy
    (by decide) (by decide)

/-! ## Claim C7 -/

/-- C7 counterexample: the claim names `container-runtime` as one of the
three source enum values, but the rendering dict knows only `deploy`,
`docker` and `incident`; a `container-runtime` event renders the
unknown-source placeholder tag `[?]`. -/
theorem renderEventLine_container_runtime_placeholder :
    iconFor "container-runtime" = "?" ∧
    strTake (renderEventLine evCR) 3 = "[?]" := by constructor <;> rfl

/-- C7 (amended): for every event whose source is one of the three
source values the code recognises — `deploy`, `docker`, `incident` —
the rendered line encodes that source as a one-character tag that is
never the unknown-source placeholder, together with the timestamp
truncated to second precision (at most 19 characters), source/type,
entity, and environment. (`container-runtime` is not among the
recognised values; it renders the placeholder.) -/
theorem renderEventLine_known_sources (e : Event) (s : String)
    (hsrc : e.source = some s)
    (hs : s = "deploy" ∨ s = "docker" ∨ s = "incident") :
    iconFor s ≠ "?" ∧
    renderEventLine e =
      "[" ++ iconFor s ++ "] " ++ renderTs e.occurred_at ++ " | " ++ s ++ "/" ++
        orQ e.event_type ++ " | " ++ orQ e.entity ++ " (" ++
        orQ e.environment ++ ")" ∧
    (renderTs e.occurred_at).length ≤ 19 := by
  have hlen : (renderTs e.occurred_at).length ≤ 19 := by
    cases hocc : e.occurred_at with
    | none => decide
    | some t =>
      simp only [renderTs]
      split
      · decide
      · show (t.data.take 19).length ≤ 19
        rw [List.length_take]
        exact Nat.min_le_left _ _
  rcases hs with rfl | rfl | rfl <;>
    exact ⟨by decide, by simp [renderEventLine, hsrc, orQ], hlen⟩

/-- C7 witness: the sample docker event renders with tag `C`. -/
theorem renderEventLine_known_sources_witness :
    iconFor "docker" ≠ "?" ∧
    renderEventLine evDocker =
      "[" ++ iconFor "docker" ++ "] " ++ renderTs evDocker.occurred_at ++ " | " ++
        "docker" ++ "/" ++ orQ evDocker.event_type ++ " | " ++
        orQ evDocker.entity ++ " (" ++ orQ evDocker.environment ++ ")" ∧
    (renderTs evDocker.occurred_at).length ≤ 19 :=
  renderEventLine_known_sources evDocker "docker" rfl (Or.inr (Or.inl rfl))

/-! ## Claim C2 -/

/-- C2 counterexample: take an incident created at wall-clock epoch 1000
with `started_at = "2025-01-15T03:00:00Z"` (parsing to 1000). The stored
`timeline_query` text keeps `COALESCE(NULL, NOW())` unevaluated, so
replaying it at epoch 9000 selects the window `(100, 9900)`, not the
window `(1000 - 900, 1000 + 900) = (100, 1900)` that the claim (upper
bound anchored at creation time) requires. -/
theorem timeline_query_not_creation_anchored :
    strContains (timeline_sql "2025-01-15T03:00:00Z") "COALESCE(NULL, NOW())" =
      true ∧
    evalStoredQuery pFix (timeline_sql "2025-01-15T03:00:00Z") 9000 =
      some (100, 9900) ∧
    ¬((100 : Int), (9900 : Int)) = (1000 - 15 * 60, 1000 + 15 * 60) := by
  refine ⟨by decide, by decide, by decide⟩

/-- C2 (amended): the stored `timeline_query` text is a deterministic
function of `started_at` alone (it is recoverable from the text, and
neither the creation wall-clock nor any entity filter enters it), and it
denotes the window `[started_at - 15 min, NOW() + 15 min]` where `NOW()`
is the wall-clock at evaluation (replay) time, not at creation. -/
theorem timeline_query_window_replay (parseTs : String → Option Int)
    (started : String) (t evalNow : Int)
    (hq : ∀ c ∈ started.data, ¬ c = sqChar)
    (hp : parseTs started = some t) :
    extractStartTs (timeline_sql started) = some started ∧
    evalStoredQuery parseTs (timeline_sql started) evalNow =
      some (t - 15 * 60, evalNow + 15 * 60) := by
  have hx := extractStartTs_timeline_sql started hq
  refine ⟨hx, ?_⟩
  unfold evalStoredQuery
  rw [hx]
  simp [hp, storedQueryWindow]

/-- C2 witness: the sample timestamp (no quote characters, parsing to
epoch 1000) replayed at epoch 9000. -/
theorem timeline_query_window_replay_witness :
    extractStartTs (timeline_sql "2025-01-15T03:00:00Z") =
      some "2025-01-15T03:00:00Z" ∧
    evalStoredQuery pFix (timeline_sql "2025-01-15T03:00:00Z") 9000 =
      some (1000 - 15 * 60, 9000 + 15 * 60) :=
  timeline_query_window_replay pFix "2025-01-15T03:00:00Z" 1000 9000
    (by decide) (by decide)

/-! ## Claim C1 -/

theorem resolve_incident_eq_of_find_none (db : List Incident) (incident_id : Int)
    (rc res now : String) (kp : KPDoc)
    (hfind : db.find? (resolveHits incident_id) = none) :
    resolve_incident db incident_id rc res (some kp) now =
      (.notFoundOrResolved incident_id, db) := by
  simp only [resolve_incident, hfind]

theorem resolve_incident_eq_of_find_some (db : List Incident) (incident_id : Int)
    (rc res now : String) (kp : KPDoc) (row : Incident)
    (hfind : db.find? (resolveHits incident_id) = some row) :
    resolve_incident db incident_id rc res (some kp) now =
      (.resolved incident_id row.title row.started_at,
       db.map (fun r =>
         if resolveHits incident_id r then resolveSet now rc res kp r else r)) := by
  simp only [resolve_incident, hfind]

/-- C1: `resolve_incident` is a single conditional update — record `i`
is rewritten exactly when it has the requested id and a null
`resolved_at`, and keeps its value otherwise; when no open incident with
that id exists the call fails with the not-found error and every record
is unchanged; and when an open incident with the id exists, the first
call succeeds and a second call on the resulting table fails with the
not-found error, changing nothing. -/
theorem resolve_incident_conditional_once (db : List Incident) (incident_id : Int)
    (rc res now : String) (kp : KPDoc) :
    ((resolve_incident db incident_id rc res (some kp) now).2.length = db.length) ∧
    (∀ (i : Nat) (h1 : i < db.length)
        (h2 : i < (resolve_incident db incident_id rc res (some kp) now).2.length),
      (resolve_incident db incident_id rc res (some kp) now).2[i] =
        if resolveHits incident_id db[i] then resolveSet now rc res kp db[i]
        else db[i]) ∧
    ((∀ r ∈ db, ¬(r.id = incident_id ∧ r.resolved_at = none)) →
      resolve_incident db incident_id rc res (some kp) now =
        (.notFoundOrResolved incident_id, db)) ∧
    (∀ r₀ ∈ db, r₀.id = incident_id → r₀.resolved_at = none →
      (∃ t s, (resolve_incident db incident_id rc res (some kp) now).1 =
          ResolveOut.resolved incident_id t s) ∧
      (∀ (rc2 res2 now2 : String) (kp2 : KPDoc),
        resolve_incident (resolve_incident db incident_id rc res (some kp) now).2
            incident_id rc2 res2 (some kp2) now2 =
          (.notFoundOrResolved incident_id,
           (resolve_incident db incident_id rc res (some kp) now).2))) := by
  cases hfind : db.find? (resolveHits incident_id) with
  | none =>
    have heq := resolve_incident_eq_of_find_none db incident_id rc res now kp hfind
    have hnone := List.find?_eq_none.mp hfind
    rw [heq]
    refine ⟨rfl, ?_, fun _ => rfl, ?_⟩
    · intro i h1 h2
      have hmiss : ¬ resolveHits incident_id db[i] = true :=
        hnone _ (db.getElem_mem h1)
      simp [hmiss]
    · intro r₀ hr₀ hid hres
      exact absurd (by simp [resolveHits, hid, hres]) (hnone r₀ hr₀)
  | some row =>
    have heq := resolve_incident_eq_of_find_some db incident_id rc res now kp
      row hfind
    rw [heq]
    refine ⟨by simp, ?_, ?_, ?_⟩
    · intro i h1 h2
      simp
    · intro hall
      have hmem := List.mem_of_find?_eq_some hfind
      have hhit := List.find?_some hfind
      simp only [resolveHits, Bool.and_eq_true, beq_iff_eq,
        Option.isNone_iff_eq_none] at hhit
      exact absurd ⟨hhit.1, hhit.2⟩ (hall row hmem)
    · intro r₀ hr₀ hid hres
      refine ⟨⟨row.title, row.started_at, rfl⟩, ?_⟩
      intro rc2 res2 now2 kp2
      have hnone2 : (db.map (fun r =>
          if resolveHits incident_id r then resolveSet now rc res kp r
          else r)).find? (resolveHits incident_id) = none := by
        apply List.find?_eq_none.mpr
        intro x hx
        rcases List.mem_map.mp hx with ⟨r, hr, rfl⟩
        by_cases hhit : resolveHits incident_id r = true
        · rw [if_pos hhit]
          simp [resolveSet, resolveHits]
        · rw [if_neg hhit]
          exact hhit
      exact resolve_incident_eq_of_find_none _ incident_id rc2 res2 now2 kp2 hnone2

/-- C1 witness: resolving the open sample incident succeeds; resolving
it again on the updated table fails with the not-found error and leaves
the table unchanged. -/
theorem resolve_incident_conditional_once_witness :
    (∃ t s, (resolve_incident [incA] 1 "Memory limit" "Raised memory" (some [])
        "2025-01-15T04:30:00+00:00").1 = ResolveOut.resolved 1 t s) ∧
    resolve_incident (resolve_incident [incA] 1 "Memory limit" "Raised memory"
        (some []) "2025-01-15T04:30:00+00:00").2 1 "again" "again" (some [])
        "2025-01-15T05:00:00+00:00" =
      (.notFoundOrResolved 1,
       (resolve_incident [incA] 1 "Memory limit" "Raised memory" (some [])
         "2025-01-15T04:30:00+00:00").2) := by
  have h := (resolve_incident_conditional_once [incA] 1 "Memory limit"
    "Raised memory" "2025-01-15T04:30:00+00:00" []).2.2.2 incA (by decide)
    (by decide) (by decide)
  exact ⟨h.1, h.2 "again" "again" "2025-01-15T05:00:00+00:00" []⟩

/-! ## Claim C10 -/

/-- C10: `create_incident_marker` validates severity and
affected services before any store access — a severity outside
`critical`/`warning`/`info`, or an affected-services string that trims
to an empty list, yields the corresponding error with the incident
table unchanged. -/
theorem create_incident_marker_validates_first (db : List Incident)
    (next_id : Int) (title severity started_at affected_services : String)
    (root_cause resolution : Option String) :
    ((severity == "critical" || severity == "warning" || severity == "info") =
        false →
      create_incident_marker db next_id title severity started_at
          affected_services root_cause resolution =
        (.invalidSeverity severity, db)) ∧
    ((severity == "critical" || severity == "warning" || severity == "info") =
        true →
      (parseServices affected_services).isEmpty = true →
      create_incident_marker db next_id title severity started_at
          affected_services root_cause resolution = (.noServices, db)) := by
  constructor
  · intro h
    simp [create_incident_marker, h]
  · intro h hsvc
    simp [create_incident_marker, h, hsvc]

/-- C10 witness: severity `urgent` is rejected, and an
affected-services string of separators and blanks is rejected, both
leaving the sample table unchanged. -/
theorem create_incident_marker_validates_first_witness :
    create_incident_marker [incA] 2 "Test" "urgent" "2025-01-15T03:00:00Z"
        "svc" none none = (.invalidSeverity "urgent", [incA]) ∧
    create_incident_marker [incA] 2 "Test" "warning" "2025-01-15T03:00:00Z"
        " , ,  " none none = (.noServices, [incA]) :=
  ⟨(create_incident_marker_validates_first [incA] 2 "Test" "urgent"
      "2025-01-15T03:00:00Z" "svc" none none).1 (by decide),
   (create_incident_marker_validates_first [incA] 2 "Test" "warning"
      "2025-01-15T03:00:00Z" " , ,  " none none).2 (by decide) (by decide)⟩

/-! ## Claim C6 -/

/-- C6: `find_similar_incidents` fails with the invalid-input error when
both criteria are absent (Python-falsy); when both are given, the
conditions are combined with logical OR — every incident matching
either the service-overlap criterion or the keyword substring criterion
satisfies the assembled match predicate, and is returned whenever the
match count fits under the cap. -/
theorem find_similar_incidents_or_semantics (db : List Incident)
    (services keywords : Option String) (limit : Int) :
    (isBlankO services = true → isBlankO keywords = true →
      find_similar_incidents db services keywords limit = .needCriteria) ∧
    (isBlankO services = false → isBlankO keywords = false →
      ∀ r ∈ db,
        (serviceOverlap (parseServices (services.getD "")) r = true ∨
          keywordMatch (keywords.getD "") r = true) →
        similarMatch services keywords r = true ∧
        ((db.filter (similarMatch services keywords)).length ≤
            (min limit 50).toNat →
          ∃ shown, find_similar_incidents db services keywords limit =
              .results shown ∧ r ∈ shown)) := by
  constructor
  · intro h1 h2
    simp [find_similar_incidents, h1, h2]
  · intro h1 h2 r hr hor
    have hmatch : similarMatch services keywords r = true := by
      simp only [similarMatch, h1, h2, Bool.if_false_left, Bool.or_eq_true]
      simpa using hor
    refine ⟨hmatch, ?_⟩
    intro hlen
    have hfl : r ∈ db.filter (similarMatch services keywords) :=
      List.mem_filter.mpr ⟨hr, hmatch⟩
    have hsort : r ∈ sortBy startedDesc (db.filter (similarMatch services keywords)) :=
      (mem_sortBy _ _ _).mpr hfl
    have hlen2 : (sortBy startedDesc
        (db.filter (similarMatch services keywords))).length ≤
          (min limit 50).toNat := by
      rw [length_sortBy]; exact hlen
    have htake := List.take_of_length_le hlen2
    have hne : (sortBy startedDesc
        (db.filter (similarMatch services keywords))).isEmpty = false := by
      cases hcase : sortBy startedDesc (db.filter (similarMatch services keywords)) with
      | nil => rw [hcase] at hsort; cases hsort
      | cons a l => rfl
    refine ⟨sortBy startedDesc (db.filter (similarMatch services keywords)), ?_,
      hsort⟩
    simp [find_similar_incidents, h1, htake, hne]

/-- C6 witness: with both criteria given, the sample incident matching
only the keyword criterion is returned. -/
theorem find_similar_incidents_or_semantics_witness :
    ∃ shown, find_similar_incidents dbSearch (some "ghost-blog") (some "cert")
        10 = .results shown ∧ incCert ∈ shown :=
  ((find_similar_incidents_or_semantics dbSearch (some "ghost-blog")
      (some "cert") 10).2 (by decide) (by decide) incCert (by decide)
    (Or.inr (by decide))).2 (by decide)

/-! ## Claim C8 -/

/-- C8: `_extract_symptoms` lets several patterns fire on the same text
— on `("Ghost OOM crash", "memory limit exceeded", None)` the result
includes both `Out of memory / OOM kill` and `Memory pressure` — and in
general it returns a duplicate-free list that is a subsequence of the
fired pattern labels (in table order) followed by the prior-pack
symptoms, so deduplication keeps first-seen order. -/
theorem extract_symptoms_contract :
    ("Out of memory / OOM kill" ∈
        extract_symptoms "Ghost OOM crash" "memory limit exceeded" none ∧
     "Memory pressure" ∈
        extract_symptoms "Ghost OOM crash" "memory limit exceeded" none) ∧
    (∀ (title root_cause : String) (kp : Option KPDoc),
      (extract_symptoms title root_cause kp).Nodup) ∧
    (∀ (title root_cause : String) (kp : Option KPDoc),
      List.Sublist (extract_symptoms title root_cause kp)
        (((symptom_patterns.filter (fun p =>
              strContains (strLower (title ++ " " ++ root_cause)) p.1)).map
            (fun p => p.2)) ++ priorSymptoms kp)) := by
  refine ⟨⟨by decide, by decide⟩, ?_, ?_⟩
  · intro title root_cause kp
    exact nodup_dedupKeepFirst _ _
  · intro title root_cause kp
    exact dedupKeepFirst_sublist _ _

/-! ## Claim C3 -/

/-- C3: `generate_knowledge_pack` checks its preconditions fail-fast in
order — incident exists, then resolved, then root cause and resolution
both present; each violation returns its own error with the state
(incident table, knowledge store, learnings store) fully unchanged, and
the three error messages are pairwise distinct. -/
theorem generate_knowledge_pack_fail_fast (parseTs : String → Option Int)
    (now : String) (st : GenState) (incident_id : Int) :
    (st.incidents.find? (fun r => r.id == incident_id) = none →
      generate_knowledge_pack parseTs now st incident_id =
        (.notFound incident_id, st)) ∧
    (∀ row, st.incidents.find? (fun r => r.id == incident_id) = some row →
      isBlankO row.resolved_at = true →
      generate_knowledge_pack parseTs now st incident_id =
        (.notResolved incident_id, st)) ∧
    (∀ row, st.incidents.find? (fun r => r.id == incident_id) = some row →
      isBlankO row.resolved_at = false →
      (isBlankO row.root_cause || isBlankO row.resolution) = true →
      generate_knowledge_pack parseTs now st incident_id =
        (.missingFields incident_id, st)) ∧
    ((GenOut.notFound incident_id).render ≠
        (GenOut.notResolved incident_id).render ∧
     (GenOut.notFound incident_id).render ≠
        (GenOut.missingFields incident_id).render ∧
     (GenOut.notResolved incident_id).render ≠
        (GenOut.missingFields incident_id).render) := by
  refine ⟨?_, ?_, ?_, ?_, ?_, ?_⟩
  · intro h
    simp [generate_knowledge_pack, h]
  · intro row hfind hres
    simp [generate_knowledge_pack, hfind, hres]
  · intro row hfind hres hmiss
    simp [generate_knowledge_pack, hfind, hres, hmiss]
  · intro h
    have hl := congrArg String.length h
    simp only [GenOut.render, String.length_append] at hl
    have hs : (" not found." : String).length ≠
        (" is not yet resolved. Resolve it first." : String).length := by decide
    omega
  · intro h
    have hl := congrArg String.length h
    simp only [GenOut.render, String.length_append] at hl
    have hs : (" not found." : String).length ≠
        (" is missing root_cause or resolution. " : String).length +
          ("Both are required to generate a knowledge pack." : String).length := by
      decide
    omega
  · intro h
    have hl := congrArg String.length h
    simp only [GenOut.render, String.length_append] at hl
    have hs : (" is not yet resolved. Resolve it first." : String).length ≠
        (" is missing root_cause or resolution. " : String).length +
          ("Both are required to generate a knowledge pack." : String).length := by
      decide
    omega

/-- C3 witness: the three violations on concrete states — missing
incident, unresolved incident, resolved incident without root cause —
each return their own error and leave the state untouched. -/
theorem generate_knowledge_pack_fail_fast_witness :
    generate_knowledge_pack pZero "t" stEmpty 1 = (.notFound 1, stEmpty) ∧
    generate_knowledge_pack pZero "t" stUnres 1 = (.notResolved 1, stUnres) ∧
    generate_knowledge_pack pZero "t" stNoRC 1 = (.missingFields 1, stNoRC) :=
  ⟨(generate_knowledge_pack_fail_fast pZero "t" stEmpty 1).1 (by decide),
   (generate_knowledge_pack_fail_fast pZero "t" stUnres 1).2.1 incA (by decide)
     (by decide),
   (generate_knowledge_pack_fail_fast pZero "t" stNoRC 1).2.2.1 incNoRC
     (by decide) (by decide) (by decide)⟩

/-! ## Claim C5 -/

/-- C5 counterexample: the claim promises that every pre-existing
`knowledge_pack` key keeps its prior value across a successful
`generate_knowledge_pack`. On the sample incident whose pack already
holds `generated_at = "old"`, generation at wall-clock
`2025-02-01T00:00:00+00:00` persists `generated_at` with the new value,
so the prior value of that pre-existing key is not preserved. -/
theorem generate_knowledge_pack_overwrites_metadata_key :
    getKey (incKpMeta.knowledge_pack.getD []) "generated_at" =
      some (KV.jstr "old") ∧
    ((generate_knowledge_pack pZero "2025-02-01T00:00:00+00:00" stMeta 1).2.incidents.map
        (fun r => getKey (r.knowledge_pack.getD []) "generated_at")) =
      [some (KV.jstr "2025-02-01T00:00:00+00:00")] ∧
    ¬ KV.jstr "2025-02-01T00:00:00+00:00" = KV.jstr "old" := by
  refine ⟨by decide, by decide, by decide⟩

/-- C5 (amended): a successful `generate_knowledge_pack` persists, for
every incident record with the requested id, the merge of the
pre-existing `knowledge_pack` with the generation metadata: every
pre-existing key other than the three metadata keys
(`knowledge_pack_generated`, `generated_at`, `artifacts`) keeps its
prior value, while those three are set to `true`, the generation time,
and the artifact names — a pre-existing value under a metadata key
(such as `generated_at` from an earlier run) is overwritten. -/
theorem generate_knowledge_pack_merge (parseTs : String → Option Int)
    (now : String) (st : GenState) (incident_id : Int) (row : Incident)
    (hfind : st.incidents.find? (fun r => r.id == incident_id) = some row)
    (hres : isBlankO row.resolved_at = false)
    (hrc : isBlankO row.root_cause = false)
    (hrs : isBlankO row.resolution = false) :
    (∀ r' ∈ (generate_knowledge_pack parseTs now st incident_id).2.incidents,
      r'.id = incident_id →
        r'.knowledge_pack = some (mergedKnowledgePack
          (row.knowledge_pack.getD []) now
          (if isBlankO row.timeline_query then none
           else some ("incident_" ++ toString incident_id ++ "_timeline"))
          ("incident_sig_" ++ toString incident_id ++ "_" ++ slugify row.title))) ∧
    (∀ (base : KPDoc) (vq : Option String) (ln k : String),
      k ≠ "knowledge_pack_generated" → k ≠ "generated_at" → k ≠ "artifacts" →
      getKey (mergedKnowledgePack base now vq ln) k = getKey base k) ∧
    (∀ (base : KPDoc) (vq : Option String) (ln : String),
      getKey (mergedKnowledgePack base now vq ln) "knowledge_pack_generated" =
          some (KV.jbool true) ∧
      getKey (mergedKnowledgePack base now vq ln) "generated_at" =
          some (KV.jstr now) ∧
      getKey (mergedKnowledgePack base now vq ln) "artifacts" =
          some (KV.jobjs [("validated_query", vq), ("learning", some ln)])) := by
  have hmiss : (isBlankO row.root_cause || isBlankO row.resolution) = false := by
    rw [hrc, hrs]; rfl
  refine ⟨?_, ?_, ?_⟩
  · intro r' hr' hid
    simp only [generate_knowledge_pack, hfind, hres, hmiss, Bool.false_eq_true,
      if_false] at hr'
    simp only [List.mem_map] at hr'
    rcases hr' with ⟨r, hr, rfl⟩
    by_cases hrid : r.id == incident_id
    · rw [if_pos hrid]
    · rw [if_neg hrid] at hid ⊢
      exact absurd (by simp [hid]) hrid
  · intro base vq ln k h1 h2 h3
    unfold mergedKnowledgePack
    rw [getKey_setKey_other _ _ _ _ h3, getKey_setKey_other _ _ _ _ h2,
      getKey_setKey_other _ _ _ _ h1]
  · intro base vq ln
    unfold mergedKnowledgePack
    refine ⟨?_, ?_, ?_⟩
    · rw [getKey_setKey_other _ _ _ _ (by decide),
        getKey_setKey_other _ _ _ _ (by decide), getKey_setKey_same]
    · rw [getKey_setKey_other _ _ _ _ (by decide), getKey_setKey_same]
    · rw [getKey_setKey_same]

/-- C5 witness: on the sample incident with a pre-existing pack, the
pre-existing non-metadata key `gotchas` keeps its prior value in the
merged document. -/
theorem generate_knowledge_pack_merge_witness :
    getKey (mergedKnowledgePack (incKpMeta.knowledge_pack.getD [])
        "2025-02-01T00:00:00+00:00" none "incident_sig_1_ghost_oom_crash_loop")
        "gotchas" =
      getKey (incKpMeta.knowledge_pack.getD []) "gotchas" :=
  (generate_knowledge_pack_merge pZero "2025-02-01T00:00:00+00:00" stMeta 1
      incKpMeta (by decide) (by decide) (by decide) (by decide)).2.1
    (incKpMeta.knowledge_pack.getD []) none "incident_sig_1_ghost_oom_crash_loop"
    "gotchas" (by decide) (by decide) (by decide)

/-! ## Claim C9 -/

/-- C9: when `generate_knowledge_pack` succeeds on a resolved incident
whose `timeline_query` is absent (null or empty), it writes nothing to
the validated-query knowledge store, still writes the incident-signature
document to the learnings store, and the merged pack records
`validated_query` as explicitly null next to the learning name. -/
theorem generate_knowledge_pack_no_timeline_query (parseTs : String → Option Int)
    (now : String) (st : GenState) (incident_id : Int) (row : Incident)
    (hfind : st.incidents.find? (fun r => r.id == incident_id) = some row)
    (hres : isBlankO row.resolved_at = false)
    (hrc : isBlankO row.root_cause = false)
    (hrs : isBlankO row.resolution = false)
    (htq : isBlankO row.timeline_query = true) :
    ((generate_knowledge_pack parseTs now st incident_id).2.knowledge =
      st.knowledge) ∧
    (st.learnings.find? (fun p =>
        p.1 == "incident_sig_" ++ toString incident_id ++ "_" ++ slugify row.title) =
          none →
      ("incident_sig_" ++ toString incident_id ++ "_" ++ slugify row.title,
        incidentSignature parseTs incident_id row.title row.severity
          row.affected_services (row.root_cause.getD "") (row.resolution.getD "")
          (if row.started_at == "" then "unknown" else row.started_at)
          (row.resolved_at.getD "") (some row.started_at) row.resolved_at
          (row.knowledge_pack.getD [])) ∈
        (generate_knowledge_pack parseTs now st incident_id).2.learnings) ∧
    (getKey (mergedKnowledgePack (row.knowledge_pack.getD []) now none
        ("incident_sig_" ++ toString incident_id ++ "_" ++ slugify row.title))
        "artifacts" =
      some (KV.jobjs [("validated_query", none),
        ("learning",
         some ("incident_sig_" ++ toString incident_id ++ "_" ++
           slugify row.title))])) ∧
    (∀ r' ∈ (generate_knowledge_pack parseTs now st incident_id).2.incidents,
      r'.id = incident_id →
        r'.knowledge_pack = some (mergedKnowledgePack
          (row.knowledge_pack.getD []) now none
          ("incident_sig_" ++ toString incident_id ++ "_" ++ slugify row.title))) := by
  have hmiss : (isBlankO row.root_cause || isBlankO row.resolution) = false := by
    rw [hrc, hrs]; rfl
  refine ⟨?_, ?_, ?_, ?_⟩
  · simp [generate_knowledge_pack, hfind, hres, hmiss, htq]
  · intro hnew
    simp only [generate_knowledge_pack, hfind, hres, hmiss, htq,
      Bool.false_eq_true, if_false, if_true]
    simp [insertSkipIfExists, hnew]
  · unfold mergedKnowledgePack
    rw [getKey_setKey_same]
  · intro r' hr' hid
    simp only [generate_knowledge_pack, hfind, hres, hmiss, htq,
      Bool.false_eq_true, if_false, if_true] at hr'
    simp only [List.mem_map] at hr'
    rcases hr' with ⟨r, hr, rfl⟩
    by_cases hrid : r.id == incident_id
    · rw [if_pos hrid]
    · rw [if_neg hrid] at hid ⊢
      exact absurd (by simp [hid]) hrid

/-- C9 witness: on the sample resolved incident without a stored
timeline query, the knowledge store stays empty and the signature
document lands in the learnings store. -/
theorem generate_knowledge_pack_no_timeline_query_witness :
    ((generate_knowledge_pack pZero "2025-02-01T00:00:00+00:00" stNoTq 1).2.knowledge =
      stNoTq.knowledge) ∧
    ("incident_sig_" ++ toString (1 : Int) ++ "_" ++ slugify incNoTq.title,
      incidentSignature pZero 1 incNoTq.title incNoTq.severity
        incNoTq.affected_services (incNoTq.root_cause.getD "")
        (incNoTq.resolution.getD "")
        (if incNoTq.started_at == "" then "unknown" else incNoTq.started_at)
        (incNoTq.resolved_at.getD "") (some incNoTq.started_at)
        incNoTq.resolved_at (incNoTq.knowledge_pack.getD [])) ∈
      (generate_knowledge_pack pZero "2025-02-01T00:00:00+00:00" stNoTq 1).2.learnings := by
  have h := generate_knowledge_pack_no_timeline_query pZero
    "2025-02-01T00:00:00+00:00" stNoTq 1 incNoTq (by decide) (by decide)
    (by decide) (by decide) (by decide)
  exact ⟨h.1, h.2.1 (by decide)⟩

end DataAgent
